import Mathlib

/-!
Verification of the ProxyPin MCP bridge (`src/proxypin_mcp_server.py`).

The development shallowly embeds the bridge's transport client
(`call_proxypin_tool`) and the argument-shaping bodies of the exposed
tools.  JSON values are modelled by the inductive `Json` below; Python's
`json.loads` is modelled by `jsonLoads` over the JSON grammar restricted
to null / booleans / integers / strings / arrays / objects (floating
point literals are outside the model).  Python exceptions are modelled
by `PyErr`: the bridge's own `raise Exception(msg)` becomes
`PyErr.exception msg`, an uncaught `json.JSONDecodeError` from
`json.loads` becomes `PyErr.jsonDecodeError`, and code paths on which
Python would raise a raw `TypeError`/`AttributeError`/`KeyError`
(malformed response shapes never produced by the remote service) are
collapsed into `PyErr.typeError`.
-/

/-- JSON values (no floating point: the bridge's own payloads and the
response shapes it inspects only use the constructors below). -/
inductive Json where
  | null : Json
  | bool : Bool → Json
  | num : Int → Json
  | str : String → Json
  | arr : List Json → Json
  | obj : List (String × Json) → Json

/-- Python `dict` lookup on an association list (keys are kept unique by
`dictInsert`, mirroring `dict` semantics). -/
def dictLookup (fields : List (String × Json)) (k : String) : Option Json :=
  match fields with
  | [] => none
  | (k', v) :: rest => if k' = k then some v else dictLookup rest k

/-- Python `dict` assignment `d[k] = v`: replaces the value in place when
the key exists, otherwise appends (insertion order preserved). -/
def dictInsert (fields : List (String × Json)) (k : String) (v : Json) :
    List (String × Json) :=
  match fields with
  | [] => [(k, v)]
  | (k', v') :: rest =>
    if k' = k then (k, v) :: rest else (k', v') :: dictInsert rest k v

/-- Skip JSON whitespace. -/
def skipWs : List Char → List Char
  | [] => []
  | c :: cs =>
    if c = ' ' ∨ c = '\t' ∨ c = '\n' ∨ c = '\r' then skipWs cs else c :: cs

/-- Value of a hexadecimal digit. -/
def hexVal (c : Char) : Option Nat :=
  if c.isDigit then some (c.toNat - 48)
  else if 'a' ≤ c ∧ c ≤ 'f' then some (c.toNat - 87)
  else if 'A' ≤ c ∧ c ≤ 'F' then some (c.toNat - 55)
  else none

/-- Single-character JSON string escapes. -/
def escChar (c : Char) : Option Char :=
  match c with
  | '"' => some '"'
  | '\\' => some '\\'
  | '/' => some '/'
  | 'n' => some '\n'
  | 't' => some '\t'
  | 'r' => some '\r'
  | 'b' => some (Char.ofNat 8)
  | 'f' => some (Char.ofNat 12)
  | _ => none

/-- Parse the body of a JSON string after the opening quote, returning
the decoded content and the input after the closing quote. -/
def parseStringBody : List Char → Option (String × List Char)
  | [] => none
  | '"' :: cs => some ("", cs)
  | '\\' :: 'u' :: h1 :: h2 :: h3 :: h4 :: cs =>
    match hexVal h1, hexVal h2, hexVal h3, hexVal h4 with
    | some a, some b, some c, some d =>
      (parseStringBody cs).map
        (fun p => (String.singleton (Char.ofNat (((a * 16 + b) * 16 + c) * 16 + d)) ++ p.1, p.2))
    | _, _, _, _ => none
  | '\\' :: e :: cs =>
    match escChar e with
    | some c => (parseStringBody cs).map (fun p => (String.singleton c ++ p.1, p.2))
    | none => none
  | c :: cs => (parseStringBody cs).map (fun p => (String.singleton c ++ p.1, p.2))

/-- Accumulate decimal digits. -/
def parseNatAux (acc : Nat) : List Char → (Nat × List Char)
  | [] => (acc, [])
  | c :: cs =>
    if c.isDigit then parseNatAux (acc * 10 + (c.toNat - 48)) cs else (acc, c :: cs)

/-- Parse a JSON integer literal (optional minus sign, then digits). -/
def parseNumber (cs : List Char) : Option (Int × List Char) :=
  match cs with
  | '-' :: c :: rest =>
    if c.isDigit then
      let p := parseNatAux (c.toNat - 48) rest
      some (-(p.1 : Int), p.2)
    else none
  | c :: rest =>
    if c.isDigit then
      let p := parseNatAux (c.toNat - 48) rest
      some ((p.1 : Int), p.2)
    else none
  | [] => none

mutual

/-- Fuel-indexed JSON value parser. -/
def parseVal : Nat → List Char → Option (Json × List Char)
  | 0, _ => none
  | Nat.succ f, cs =>
    match skipWs cs with
    | '"' :: rest => (parseStringBody rest).map (fun p => (Json.str p.1, p.2))
    | '[' :: rest =>
      match skipWs rest with
      | ']' :: rest2 => some (Json.arr [], rest2)
      | rest2 => (parseElems f rest2).map (fun p => (Json.arr p.1, p.2))
    | '\x7b' :: rest =>
      match skipWs rest with
      | '\x7d' :: rest2 => some (Json.obj [], rest2)
      | rest2 =>
        (parseMembers f rest2).map
          (fun p => (Json.obj (p.1.foldl (fun d kv => dictInsert d kv.1 kv.2) []), p.2))
    | 'n' :: 'u' :: 'l' :: 'l' :: rest => some (Json.null, rest)
    | 't' :: 'r' :: 'u' :: 'e' :: rest => some (Json.bool true, rest)
    | 'f' :: 'a' :: 'l' :: 's' :: 'e' :: rest => some (Json.bool false, rest)
    | cs' => (parseNumber cs').map (fun p => (Json.num p.1, p.2))

/-- Fuel-indexed parser for the elements of a non-empty JSON array. -/
def parseElems : Nat → List Char → Option (List Json × List Char)
  | 0, _ => none
  | Nat.succ f, cs =>
    match parseVal f cs with
    | none => none
    | some (v, rest) =>
      match skipWs rest with
      | ',' :: rest2 => (parseElems f rest2).map (fun p => (v :: p.1, p.2))
      | ']' :: rest2 => some ([v], rest2)
      | _ => none

/-- Fuel-indexed parser for the members of a non-empty JSON object. -/
def parseMembers : Nat → List Char → Option (List (String × Json) × List Char)
  | 0, _ => none
  | Nat.succ f, cs =>
    match skipWs cs with
    | '"' :: rest =>
      match parseStringBody rest with
      | none => none
      | some (k, rest1) =>
        match skipWs rest1 with
        | ':' :: rest2 =>
          match parseVal f rest2 with
          | none => none
          | some (v, rest3) =>
            match skipWs rest3 with
            | ',' :: rest4 => (parseMembers f rest4).map (fun p => ((k, v) :: p.1, p.2))
            | '\x7d' :: rest4 => some ([(k, v)], rest4)
            | _ => none
        | _ => none
    | _ => none

end

/-- Model of Python `json.loads`: parse one JSON value and require the
remainder to be whitespace only. -/
def jsonLoads (s : String) : Option Json :=
  let cs := s.data
  match parseVal (2 * cs.length + 2) cs with
  | some (v, rest) => if (skipWs rest).isEmpty then some v else none
  | none => none

/-- Python truthiness (`if content:` on line 48 of the source). -/
def pyTruthy : Json → Bool
  | Json.null => false
  | Json.bool b => b
  | Json.num n => n ≠ 0
  | Json.str s => s ≠ ""
  | Json.arr xs => ¬ xs.isEmpty
  | Json.obj fs => ¬ fs.isEmpty

/-- A single quote character, used by `pyRepr` for Python string repr. -/
def singleQuote : String := String.singleton (Char.ofNat 39)

mutual

/-- Python `repr`/str-interpolation of a decoded JSON value, as used by
the f-string on line 44 of the source (`f"MCP Error: -LCB-result['error']-RCB-"`).
String escaping inside `repr` is not modelled (the remote error payloads
contain no quotes or control characters). -/
def pyRepr : Json → String
  | Json.null => "None"
  | Json.bool true => "True"
  | Json.bool false => "False"
  | Json.num n => toString n
  | Json.str s => singleQuote ++ s ++ singleQuote
  | Json.arr xs => "[" ++ pyReprElems xs ++ "]"
  | Json.obj fs => "\x7b" ++ pyReprMembers fs ++ "\x7d"

/-- Comma-separated reprs of list elements. -/
def pyReprElems : List Json → String
  | [] => ""
  | [x] => pyRepr x
  | x :: xs => pyRepr x ++ ", " ++ pyReprElems xs

/-- Comma-separated reprs of dict members. -/
def pyReprMembers : List (String × Json) → String
  | [] => ""
  | [(k, v)] => singleQuote ++ k ++ singleQuote ++ ": " ++ pyRepr v
  | (k, v) :: xs =>
    singleQuote ++ k ++ singleQuote ++ ": " ++ pyRepr v ++ ", " ++ pyReprMembers xs

end

/-- Whether `pat` is an initial segment of `s` (on character lists). -/
def listPrefixOf : List Char → List Char → Bool
  | [], _ => true
  | _ :: _, [] => false
  | p :: ps, c :: cs => if p = c then listPrefixOf ps cs else false

/-- Whether `pat` occurs as a contiguous run inside `s`. -/
def listContainsSub (pat : List Char) : List Char → Bool
  | [] => listPrefixOf pat []
  | c :: cs => if listPrefixOf pat (c :: cs) then true else listContainsSub pat cs

/-- Naive substring check (used only to state properties about error
message contents). -/
def strContains (s pat : String) : Bool :=
  listContainsSub pat.data s.data

/- Configuration, lines 10-13 of the source (environment defaults). -/

def PROXYPIN_HOST : String := "127.0.0.1"

def PROXYPIN_PORT : Nat := 17777

def BASE_URL : String := "http://" ++ PROXYPIN_HOST ++ ":" ++ toString PROXYPIN_PORT

def MESSAGES_URL : String := BASE_URL ++ "/messages"

/-- The `requests.Session` object, modelled by the one configuration bit
the source sets on it (line 17: `session.trust_env = False`, disabling
ambient/system proxy configuration). -/
structure Session where
  trust_env : Bool

/-- Line 16-17 of the source: the module-level session with
`trust_env = False`. -/
def session : Session := { trust_env := false }

/-- Line 18 of the source: `request_id_counter = 1`. -/
def request_id_counter_init : Nat := 1

/-- The `params` object of the JSON-RPC envelope (lines 31-34). -/
structure RpcParams where
  name : String
  arguments : List (String × Json)

/-- The JSON-RPC request payload built on lines 27-35 of the source. -/
structure RpcRequest where
  jsonrpc : String
  id : Nat
  method : String
  params : RpcParams

/-- The HTTP POST issued on line 39 (`session.post(MESSAGES_URL,
json=payload, timeout=30)`), together with the session configuration it
is issued under. -/
structure SentPost where
  url : String
  json_payload : RpcRequest
  timeout : Nat
  trust_env : Bool

/-- An HTTP response as seen by the `requests` library. -/
structure HttpResponse where
  status : Nat
  reason : String
  body : String

/-- Outcome of the `session.post` call: either an HTTP response came
back, or the `requests` library raised a `RequestException` (connection
refused, DNS failure, timeout, ...) whose `str` is the carried message. -/
inductive PostOutcome where
  | resp : HttpResponse → PostOutcome
  | requestError : String → PostOutcome

/-- Python exceptions escaping `call_proxypin_tool`:
`exception msg` is `raise Exception(msg)` (lines 44 and 53);
`jsonDecodeError doc` is the `json.JSONDecodeError` raised by
`json.loads` on line 50 when `doc` is not valid JSON (it is not a
`requests.exceptions.RequestException`, so line 52 does not catch it);
`typeError` stands for the raw `TypeError`/`AttributeError`/`KeyError`
Python raises on response shapes of the wrong type (non-dict result,
non-list content, non-dict first element, non-string text). -/
inductive PyErr where
  | exception : String → PyErr
  | jsonDecodeError : String → PyErr
  | typeError : PyErr

/-- The message of the `requests.HTTPError` raised by
`response.raise_for_status()` (line 40) for a status in 400..599:
`"-LCB-status-RCB- Client Error: -LCB-reason-RCB- for url: -LCB-url-RCB-"` (4xx) or the same with
`Server Error` (5xx). -/
def http_error_msg (status : Nat) (reason : String) (url : String) : String :=
  toString status ++ (if status < 500 then " Client Error: " else " Server Error: ")
    ++ reason ++ " for url: " ++ url

/-- Message of the `requests` JSON decode error raised by
`response.json()` (line 41) on an unparseable body; it subclasses
`RequestException`, so line 52 catches it.  The exact wording is a
modelling of the library's message. -/
def body_decode_msg (body : String) : String :=
  "Expecting value: " ++ body

/-- Lines 47-48 of the source:
`content = result.get("result", -LCB--RCB-).get("content", [])`, for `result` an
object with fields `fields`.  A non-dict value under `"result"` makes
the second `.get` raise `AttributeError`. -/
def extract_content (fields : List (String × Json)) : Except PyErr Json :=
  match dictLookup fields "result" with
  | none => Except.ok (Json.arr [])
  | some (Json.obj rf) => Except.ok ((dictLookup rf "content").getD (Json.arr []))
  | some _ => Except.error PyErr.typeError

/-- Lines 48-51 of the source:
`if content: text = content[0].get("text", "-LCB--RCB-"); return json.loads(text)`
`return -LCB--RCB-`.
A truthy non-list `content`, a non-dict first element, or a non-string
`text` value raises a raw Python exception (modelled `typeError`). -/
def unwrap_content (content : Json) : Except PyErr Json :=
  if pyTruthy content then
    match content with
    | Json.arr (Json.obj ffields :: _) =>
      match (dictLookup ffields "text").getD (Json.str "\x7b\x7d") with
      | Json.str t =>
        match jsonLoads t with
        | some v => Except.ok v
        | none => Except.error (PyErr.jsonDecodeError t)
      | _ => Except.error PyErr.typeError
    | _ => Except.error PyErr.typeError
  else
    Except.ok (Json.obj [])

/-- The `try`/`except` body of `call_proxypin_tool` (lines 38-53), as a
function of the outcome of the `session.post` call.

- a `RequestException` from `post` is caught on line 52 and re-raised
  as `Exception("ProxyPin连接失败: -LCB-e-RCB-")`;
- a 4xx/5xx status makes `raise_for_status()` (line 40) raise an
  `HTTPError`, equally caught on line 52;
- an unparseable body makes `response.json()` (line 41) raise the
  requests JSON error, equally caught on line 52;
- `if "error" in result` (line 43) raises
  `Exception(f"MCP Error: -LCB-result['error']-RCB-")` when the key is present;
- otherwise lines 47-51 unwrap the content (see `extract_content` and
  `unwrap_content`). -/
def handle_response : PostOutcome → Except PyErr Json
  | PostOutcome.requestError e =>
    Except.error (PyErr.exception ("ProxyPin连接失败: " ++ e))
  | PostOutcome.resp r =>
    if 400 ≤ r.status ∧ r.status < 600 then
      Except.error (PyErr.exception
        ("ProxyPin连接失败: " ++ http_error_msg r.status r.reason MESSAGES_URL))
    else
      match jsonLoads r.body with
      | none =>
        Except.error (PyErr.exception ("ProxyPin连接失败: " ++ body_decode_msg r.body))
      | some (Json.obj fields) =>
        match dictLookup fields "error" with
        | some errVal =>
          Except.error (PyErr.exception ("MCP Error: " ++ pyRepr errVal))
        | none =>
          match extract_content fields with
          | Except.error e => Except.error e
          | Except.ok content => unwrap_content content
      | some _ => Except.error PyErr.typeError

/-- Result of one `call_proxypin_tool` invocation: the HTTP POST it
issued, the counter value after the call, and the returned value or the
escaping exception. -/
structure CallResult where
  sent : SentPost
  counter : Nat
  result : Except PyErr Json

/-- Lines 20-53 of the source, `call_proxypin_tool(tool_name, arguments=None)`:
builds the JSON-RPC payload with the current counter as `id` (line 29),
increments the counter (line 36, before the `try`, so it increments on
failures too), posts via the module-level `session` (line 39), and
processes the outcome (`handle_response`).  `counter` is the value of
the global `request_id_counter` on entry; the environment's behaviour at
the HTTP layer is the `outcome` argument. -/
def call_proxypin_tool (counter : Nat) (tool_name : String)
    (arguments : Option (List (String × Json))) (outcome : PostOutcome) : CallResult :=
  let args := arguments.getD []
  let payload : RpcRequest :=
    { jsonrpc := "2.0"
      id := counter
      method := "tools/call"
      params := { name := tool_name, arguments := args } }
  { sent :=
      { url := MESSAGES_URL
        json_payload := payload
        timeout := 30
        trust_env := session.trust_env }
    counter := counter + 1
    result := handle_response outcome }

/-- One scheduled invocation: the tool name and arguments passed to
`call_proxypin_tool`, and the HTTP-layer outcome of its POST. -/
structure CallSpec where
  tool_name : String
  arguments : Option (List (String × Json))
  outcome : PostOutcome

/-- Run a sequence of invocations, threading the global
`request_id_counter` through. -/
def runCalls : Nat → List CallSpec → List CallResult
  | _, [] => []
  | c, s :: rest =>
    let r := call_proxypin_tool c s.tool_name s.arguments s.outcome
    r :: runCalls r.counter rest

/-- `if v: args[k] = v` for a string-typed optional parameter with
default `None` (Python truthiness: both `None` and `""` are falsy). -/
def addTruthyStr (args : List (String × Json)) (k : String) :
    Option String → List (String × Json)
  | some s => if s = "" then args else dictInsert args k (Json.str s)
  | none => args

/-- `if v is not None: args[k] = v`. -/
def addNotNone (args : List (String × Json)) (k : String) :
    Option Json → List (String × Json)
  | some j => dictInsert args k j
  | none => args

/-- Lines 82-100 of the source: the argument mapping built by
`search_requests`.  `limit` is always present (line 82:
`args = -LCB-"limit": limit-RCB-`); the nine filters are conditionally added, the
string-typed ones guarded by truthiness (`if query:` ...) and the two
duration bounds by `is not None`. -/
def search_requests_args (query method status_code domain header_search
    request_body_search response_body_search : Option String)
    (min_duration max_duration : Option Int) (limit : Int) :
    List (String × Json) :=
  let args := [("limit", Json.num limit)]
  let args := addTruthyStr args "query" query
  let args := addTruthyStr args "method" method
  let args := addTruthyStr args "status_code" status_code
  let args := addTruthyStr args "domain" domain
  let args := addTruthyStr args "header_search" header_search
  let args := addTruthyStr args "request_body_search" request_body_search
  let args := addTruthyStr args "response_body_search" response_body_search
  let args := addNotNone args "min_duration" (min_duration.map Json.num)
  let args := addNotNone args "max_duration" (max_duration.map Json.num)
  args

/-- Lines 57-101 of the source: the `search_requests` tool.  `outcome`
is the HTTP-layer behaviour, `counter` the global `request_id_counter`
on entry; the parameter defaults mirror the Python signature. -/
def search_requests (outcome : PostOutcome) (counter : Nat)
    (query : Option String := none) (method : Option String := none)
    (status_code : Option String := none) (domain : Option String := none)
    (header_search : Option String := none)
    (request_body_search : Option String := none)
    (response_body_search : Option String := none)
    (min_duration : Option Int := none) (max_duration : Option Int := none)
    (limit : Int := 20) : CallResult :=
  call_proxypin_tool counter "search_requests"
    (some (search_requests_args query method status_code domain header_search
      request_body_search response_body_search min_duration max_duration limit))
    outcome

/-- Lines 103-106 of the source: `get_request_details(request_id)`. -/
def get_request_details (outcome : PostOutcome) (counter : Nat)
    (request_id : String) : CallResult :=
  call_proxypin_tool counter "get_request_details"
    (some [("request_id", Json.str request_id)]) outcome

/-- Lines 160-168 of the source: the argument mapping built by
`set_config` (`args = -LCB--RCB-`, then `is not None` guards for both keys). -/
def set_config_args (system_proxy ssl_capture : Option Bool) :
    List (String × Json) :=
  let args : List (String × Json) := []
  let args := addNotNone args "system_proxy" (system_proxy.map Json.bool)
  let args := addNotNone args "ssl_capture" (ssl_capture.map Json.bool)
  args

/-- Lines 160-168 of the source: the `set_config` tool. -/
def set_config (outcome : PostOutcome) (counter : Nat)
    (system_proxy : Option Bool := none) (ssl_capture : Option Bool := none) :
    CallResult :=
  call_proxypin_tool counter "set_config"
    (some (set_config_args system_proxy ssl_capture)) outcome

/-- Lines 180-183 of the source: `export_har(limit=100)`; the `limit`
key is always sent. -/
def export_har (outcome : PostOutcome) (counter : Nat)
    (limit : Int := 100) : CallResult :=
  call_proxypin_tool counter "export_har" (some [("limit", Json.num limit)]) outcome

/-- The per-key value a truthiness-guarded string parameter contributes
to the outgoing mapping: omitted for `None` and for the empty string,
included exactly otherwise. -/
def truthyStrVal : Option String → Option Json
  | some s => if s = "" then none else some (Json.str s)
  | none => none

/-- Whether a `PyErr` is the bridge's own generic `Exception` (as
opposed to a distinct exception class). -/
def PyErr.isGenericException : PyErr → Bool
  | PyErr.exception _ => true
  | _ => false

/-- Looking a key up after a `dictInsert`. -/
theorem dictLookup_dictInsert (fs : List (String × Json)) (k q : String) (v : Json) :
    dictLookup (dictInsert fs k v) q = if k = q then some v else dictLookup fs q := by
  induction fs with
  | nil => simp [dictInsert, dictLookup]
  | cons hd tl ih =>
    obtain ⟨a, b⟩ := hd
    by_cases hak : a = k
    · subst hak
      by_cases hq : a = q <;> simp [dictInsert, dictLookup, hq]
    · by_cases hq : a = q
      · subst hq
        have : ¬ k = a := fun h => hak h.symm
        simp [dictInsert, dictLookup, hak, this]
      · simp [dictInsert, dictLookup, hak, hq, ih]

/-- `addTruthyStr` at its own key. -/
theorem dictLookup_addTruthyStr_same (args : List (String × Json)) (k : String)
    (v : Option String) :
    dictLookup (addTruthyStr args k v) k =
      match v with
      | some s => if s = "" then dictLookup args k else some (Json.str s)
      | none => dictLookup args k := by
  cases v with
  | none => simp [addTruthyStr]
  | some s =>
    by_cases hs : s = "" <;> simp [addTruthyStr, hs, dictLookup_dictInsert]

/-- `addTruthyStr` at a different key. -/
theorem dictLookup_addTruthyStr_other (args : List (String × Json)) (k q : String)
    (v : Option String) (h : ¬ k = q) :
    dictLookup (addTruthyStr args k v) q = dictLookup args q := by
  cases v with
  | none => simp [addTruthyStr]
  | some s =>
    by_cases hs : s = "" <;> simp [addTruthyStr, hs, dictLookup_dictInsert, h]

/-- `addNotNone` at its own key. -/
theorem dictLookup_addNotNone_same (args : List (String × Json)) (k : String)
    (v : Option Json) :
    dictLookup (addNotNone args k v) k =
      match v with
      | some j => some j
      | none => dictLookup args k := by
  cases v with
  | none => simp [addNotNone]
  | some j => simp [addNotNone, dictLookup_dictInsert]

/-- `addNotNone` at a different key. -/
theorem dictLookup_addNotNone_other (args : List (String × Json)) (k q : String)
    (v : Option Json) (h : ¬ k = q) :
    dictLookup (addNotNone args k v) q = dictLookup args q := by
  cases v with
  | none => simp [addNotNone]
  | some j => simp [addNotNone, dictLookup_dictInsert, h]

/-- The ids sent by a run of calls starting at counter `c` are
`c, c+1, c+2, ...`. -/
theorem runCalls_ids (c : Nat) (specs : List CallSpec) :
    (runCalls c specs).map (fun r => r.sent.json_payload.id) =
      List.range' c specs.length := by
  induction specs generalizing c with
  | nil => simp [runCalls]
  | cons s rest ih =>
    simp [runCalls, call_proxypin_tool, List.range'_succ, ih]

example : jsonLoads "\x7b\x7d" = some (Json.obj []) := by rfl
example : jsonLoads "\x7b\"a\":1\x7d" = some (Json.obj [("a", Json.num 1)]) := by rfl
example : jsonLoads "not json" = none := by rfl
example : jsonLoads "  [1, -2, \"x\", null, true, false] " =
    some (Json.arr [Json.num 1, Json.num (-2), Json.str "x", Json.null,
      Json.bool true, Json.bool false]) := by rfl
example :
    jsonLoads "\x7b\"result\":\x7b\"content\":[\x7b\"text\":\"\x7b\\\"a\\\":1\x7d\"\x7d]\x7d\x7d" =
    some (Json.obj [("result", Json.obj [("content",
      Json.arr [Json.obj [("text", Json.str "\x7b\"a\":1\x7d")]])])]) := by rfl

/-- On a non-4xx/5xx response whose body decodes to an object without an
`error` field, `handle_response` unwraps the content sequence found
under `result.content`. -/
theorem handle_response_success (status : Nat) (reason body : String)
    (fields rfields : List (String × Json)) (content : Json)
    (hstatus : status < 400)
    (hbody : jsonLoads body = some (Json.obj fields))
    (herr : dictLookup fields "error" = none)
    (hres : dictLookup fields "result" = some (Json.obj rfields))
    (hcont : dictLookup rfields "content" = some content) :
    handle_response (PostOutcome.resp ⟨status, reason, body⟩) =
      unwrap_content content := by
  simp only [handle_response]
  rw [if_neg (by omega)]
  simp only [hbody, herr, extract_content, hres, hcont, Option.getD]

/-- C2: within one process lifetime (counter initialized to 1 at module
load), the request id sent with the n-th invocation of
`call_proxypin_tool` is n: ids start at 1, increase by exactly 1 per
call and are never reused, regardless of the tool name, the arguments,
and the HTTP-layer outcome (success or failure) of every call. -/
theorem C2_request_id_sequence (specs : List CallSpec) :
    (runCalls request_id_counter_init specs).map (fun r => r.sent.json_payload.id) =
      List.range' 1 specs.length :=
  runCalls_ids 1 specs

/-- C8: `search_requests` called with no arguments sends an outgoing
argument mapping whose only key is `"limit"`, with value 20, whatever
the counter state and the HTTP-layer outcome. -/
theorem C8_search_requests_default_args (o : PostOutcome) (c : Nat) :
    (search_requests o c).sent.json_payload.params.arguments =
      [("limit", Json.num 20)] := rfl

/-- C9: every outbound HTTP POST issued by `call_proxypin_tool` (hence
by every tool, with any arguments) goes through the module-level session
whose `trust_env` is `False`, so the ambient/system network-proxy
configuration is disabled for the bridge's own calls. -/
theorem C9_no_ambient_proxy (c : Nat) (t : String)
    (a : Option (List (String × Json))) (o : PostOutcome) :
    (call_proxypin_tool c t a o).sent.trust_env = false ∧ session.trust_env = false :=
  ⟨rfl, rfl⟩

/-- C7 counterexample: `export_har` invoked with only its required
parameters (it has none; `limit` is optional with default 100) sends the
optional key `"limit"` anyway — the outgoing mapping is not restricted
to the required keys, so the remote service receives a key for an unset
optional and does not get to apply its own default. -/
theorem C7_counterexample :
    (export_har (PostOutcome.requestError "down") 1).sent.json_payload.params.arguments
      = [("limit", Json.num 100)] := rfl

/-- C7 amended: tools whose optional parameters all use the `None`
sentinel send exactly the required keys when the caller supplies only
required parameters (`get_request_details` sends exactly
`request_id`; `set_config` with nothing supplied sends an empty
mapping), but tools with a non-`None` default (`export_har`'s
`limit=100`) always include that key, with the bridge-side default
value. -/
theorem C7_amended (o : PostOutcome) (c : Nat) (rid : String) :
    (get_request_details o c rid).sent.json_payload.params.arguments
      = [("request_id", Json.str rid)]
    ∧ (set_config o c).sent.json_payload.params.arguments = []
    ∧ (export_har o c).sent.json_payload.params.arguments = [("limit", Json.num 100)] :=
  ⟨rfl, rfl, rfl⟩

/-- C3 counterexample: the caller supplies the concrete value `""`
(not `None`) for the optional `query` parameter of `search_requests`,
yet the key `"query"` is omitted from the outgoing mapping (Python
truthiness also drops empty strings), contradicting the claim that any
concrete supplied value is present with exactly that value. -/
theorem C3_counterexample :
    (search_requests (PostOutcome.requestError "down") 1 (some "")).sent.json_payload.params.arguments
      = [("limit", Json.num 20)] := rfl

/-- C3 amended: for the optional parameters guarded by `is not None`
(`min_duration`, `max_duration` of `search_requests`; `system_proxy`,
`ssl_capture` of `set_config`), the key is omitted exactly when the
caller leaves the parameter unset (absence or explicit `None`) and is
present with exactly the supplied value otherwise; for the string-typed
filter parameters of `search_requests`, the guard is Python truthiness,
so the empty string is omitted like `None`, and any non-empty supplied
string is present with exactly that value.  `limit` is always present. -/
theorem C3_amended (query method status_code domain header_search
    request_body_search response_body_search : Option String)
    (min_duration max_duration : Option Int) (limit : Int)
    (system_proxy ssl_capture : Option Bool) :
    (dictLookup (search_requests_args query method status_code domain header_search
        request_body_search response_body_search min_duration max_duration limit)
      "query" = truthyStrVal query)
    ∧ (dictLookup (search_requests_args query method status_code domain header_search
        request_body_search response_body_search min_duration max_duration limit)
      "method" = truthyStrVal method)
    ∧ (dictLookup (search_requests_args query method status_code domain header_search
        request_body_search response_body_search min_duration max_duration limit)
      "status_code" = truthyStrVal status_code)
    ∧ (dictLookup (search_requests_args query method status_code domain header_search
        request_body_search response_body_search min_duration max_duration limit)
      "domain" = truthyStrVal domain)
    ∧ (dictLookup (search_requests_args query method status_code domain header_search
        request_body_search response_body_search min_duration max_duration limit)
      "header_search" = truthyStrVal header_search)
    ∧ (dictLookup (search_requests_args query method status_code domain header_search
        request_body_search response_body_search min_duration max_duration limit)
      "request_body_search" = truthyStrVal request_body_search)
    ∧ (dictLookup (search_requests_args query method status_code domain header_search
        request_body_search response_body_search min_duration max_duration limit)
      "response_body_search" = truthyStrVal response_body_search)
    ∧ (dictLookup (search_requests_args query method status_code domain header_search
        request_body_search response_body_search min_duration max_duration limit)
      "min_duration" = min_duration.map Json.num)
    ∧ (dictLookup (search_requests_args query method status_code domain header_search
        request_body_search response_body_search min_duration max_duration limit)
      "max_duration" = max_duration.map Json.num)
    ∧ (dictLookup (search_requests_args query method status_code domain header_search
        request_body_search response_body_search min_duration max_duration limit)
      "limit" = some (Json.num limit))
    ∧ (dictLookup (set_config_args system_proxy ssl_capture) "system_proxy"
        = system_proxy.map Json.bool)
    ∧ (dictLookup (set_config_args system_proxy ssl_capture) "ssl_capture"
        = ssl_capture.map Json.bool) := by
  refine ⟨?_, ?_, ?_, ?_, ?_, ?_, ?_, ?_, ?_, ?_, ?_, ?_⟩ <;>
    simp only [search_requests_args, set_config_args, truthyStrVal,
      dictLookup_addTruthyStr_same, dictLookup_addTruthyStr_other,
      dictLookup_addNotNone_same, dictLookup_addNotNone_other, dictLookup,
      String.reduceEq, ne_eq, not_false_eq_true, reduceIte]
  · cases min_duration <;> rfl
  · cases max_duration <;> rfl
  · cases system_proxy <;> rfl
  · cases ssl_capture <;> rfl

/-- C1: on a successful remote response (HTTP status below 400, body an
object with no `error` field), `call_proxypin_tool` returns the JSON
value obtained by parsing the `text` field of the first element of
`result.content` when that sequence is non-empty, and returns the empty
object when the sequence is empty; in particular the simulated response
body -LCB-"result":-LCB-"content":[-LCB-"text":"-LCB-\"a\":1-RCB-"-RCB-]-RCB--RCB- yields exactly the
object -LCB-"a": 1-RCB-. -/
theorem C1_success_unwrapping (c : Nat) (tool : String)
    (a : Option (List (String × Json)))
    (status : Nat) (reason body : String)
    (ffields : List (String × Json)) (rest : List Json) (t : String) (v : Json)
    (hstatus : status < 400)
    (hbody : jsonLoads body = some (Json.obj [("result", Json.obj [("content",
      Json.arr (Json.obj ffields :: rest))])]))
    (htext : dictLookup ffields "text" = some (Json.str t))
    (ht : jsonLoads t = some v) :
    (call_proxypin_tool c tool a (PostOutcome.resp ⟨status, reason, body⟩)).result
      = Except.ok v
    ∧ (∀ body2, jsonLoads body2 = some (Json.obj [("result", Json.obj [("content",
        Json.arr [])])]) →
        (call_proxypin_tool c tool a (PostOutcome.resp ⟨status, reason, body2⟩)).result
          = Except.ok (Json.obj []))
    ∧ (call_proxypin_tool 1 tool a (PostOutcome.resp ⟨200, "OK",
        "\x7b\"result\":\x7b\"content\":[\x7b\"text\":\"\x7b\\\"a\\\":1\x7d\"\x7d]\x7d\x7d"⟩)).result
      = Except.ok (Json.obj [("a", Json.num 1)]) := by
  refine ⟨?_, ?_, ?_⟩
  · have hr : (call_proxypin_tool c tool a
        (PostOutcome.resp ⟨status, reason, body⟩)).result
        = handle_response (PostOutcome.resp ⟨status, reason, body⟩) := rfl
    rw [hr, handle_response_success status reason body
      [("result", Json.obj [("content", Json.arr (Json.obj ffields :: rest))])]
      [("content", Json.arr (Json.obj ffields :: rest))]
      (Json.arr (Json.obj ffields :: rest)) hstatus hbody
      (by simp [dictLookup]) (by simp [dictLookup]) (by simp [dictLookup])]
    simp [unwrap_content, pyTruthy, htext, ht]
  · intro body2 hbody2
    have hr : (call_proxypin_tool c tool a
        (PostOutcome.resp ⟨status, reason, body2⟩)).result
        = handle_response (PostOutcome.resp ⟨status, reason, body2⟩) := rfl
    rw [hr, handle_response_success status reason body2
      [("result", Json.obj [("content", Json.arr [])])]
      [("content", Json.arr [])] (Json.arr []) hstatus hbody2
      (by simp [dictLookup]) (by simp [dictLookup]) (by simp [dictLookup])]
    rfl
  · rfl

/-- C1 witness: the round trip of the claim at a fully concrete input
(status 200, the simulated body of the spec, counter 5). -/
theorem C1_success_unwrapping_witness :
    (call_proxypin_tool 5 "get_scripts" none (PostOutcome.resp ⟨200, "OK",
      "\x7b\"result\":\x7b\"content\":[\x7b\"text\":\"\x7b\\\"a\\\":1\x7d\"\x7d]\x7d\x7d"⟩)).result
      = Except.ok (Json.obj [("a", Json.num 1)]) :=
  (C1_success_unwrapping 5 "get_scripts" none 200 "OK"
    "\x7b\"result\":\x7b\"content\":[\x7b\"text\":\"\x7b\\\"a\\\":1\x7d\"\x7d]\x7d\x7d"
    [("text", Json.str "\x7b\"a\":1\x7d")] [] "\x7b\"a\":1\x7d"
    (Json.obj [("a", Json.num 1)]) (by omega) (by rfl) (by rfl) (by rfl)).1

/-- C10: when the first element of `result.content` is an object with
no `text` field, `call_proxypin_tool` does not fail: line 49's
`.get("text", "-LCB--RCB-")` substitutes the string `"-LCB--RCB-"`, which parses to the
empty object, and the empty object is returned to the caller. -/
theorem C10_missing_text (c : Nat) (tool : String)
    (a : Option (List (String × Json)))
    (status : Nat) (reason body : String)
    (ffields : List (String × Json)) (rest : List Json)
    (hstatus : status < 400)
    (hbody : jsonLoads body = some (Json.obj [("result", Json.obj [("content",
      Json.arr (Json.obj ffields :: rest))])]))
    (htext : dictLookup ffields "text" = none) :
    (call_proxypin_tool c tool a (PostOutcome.resp ⟨status, reason, body⟩)).result
      = Except.ok (Json.obj []) := by
  have hr : (call_proxypin_tool c tool a
      (PostOutcome.resp ⟨status, reason, body⟩)).result
      = handle_response (PostOutcome.resp ⟨status, reason, body⟩) := rfl
  rw [hr, handle_response_success status reason body
    [("result", Json.obj [("content", Json.arr (Json.obj ffields :: rest))])]
    [("content", Json.arr (Json.obj ffields :: rest))]
    (Json.arr (Json.obj ffields :: rest)) hstatus hbody
    (by simp [dictLookup]) (by simp [dictLookup]) (by simp [dictLookup])]
  simp only [unwrap_content, pyTruthy, htext, Option.getD]
  rfl

/-- C10 witness: concrete response whose single content element is the
empty object (so it has no `text` field). -/
theorem C10_missing_text_witness :
    (call_proxypin_tool 3 "get_proxy_status" none (PostOutcome.resp ⟨200, "OK",
      "\x7b\"result\":\x7b\"content\":[\x7b\x7d]\x7d\x7d"⟩)).result
      = Except.ok (Json.obj []) :=
  C10_missing_text 3 "get_proxy_status" none 200 "OK"
    "\x7b\"result\":\x7b\"content\":[\x7b\x7d]\x7d\x7d" [] [] (by omega) (by rfl) (by rfl)

/-- C6: when the `text` field of the first content element is present
but is not valid JSON, `call_proxypin_tool` fails with the
`json.JSONDecodeError` raised by `json.loads` on line 50 — an exception
class distinct from the generic `Exception` used for all other failure
paths of the bridge. -/
theorem C6_decode_error (c : Nat) (tool : String)
    (a : Option (List (String × Json)))
    (status : Nat) (reason body t : String)
    (ffields : List (String × Json)) (rest : List Json)
    (hstatus : status < 400)
    (hbody : jsonLoads body = some (Json.obj [("result", Json.obj [("content",
      Json.arr (Json.obj ffields :: rest))])]))
    (htext : dictLookup ffields "text" = some (Json.str t))
    (ht : jsonLoads t = none) :
    (call_proxypin_tool c tool a (PostOutcome.resp ⟨status, reason, body⟩)).result
      = Except.error (PyErr.jsonDecodeError t)
    ∧ (∀ m, PyErr.jsonDecodeError t ≠ PyErr.exception m)
    ∧ PyErr.isGenericException (PyErr.jsonDecodeError t) = false := by
  refine ⟨?_, fun m h => PyErr.noConfusion h, rfl⟩
  have hr : (call_proxypin_tool c tool a
      (PostOutcome.resp ⟨status, reason, body⟩)).result
      = handle_response (PostOutcome.resp ⟨status, reason, body⟩) := rfl
  rw [hr, handle_response_success status reason body
    [("result", Json.obj [("content", Json.arr (Json.obj ffields :: rest))])]
    [("content", Json.arr (Json.obj ffields :: rest))]
    (Json.arr (Json.obj ffields :: rest)) hstatus hbody
    (by simp [dictLookup]) (by simp [dictLookup]) (by simp [dictLookup])]
  simp [unwrap_content, pyTruthy, htext, ht]

/-- C6 witness: concrete response whose content text is the non-JSON
string `"not json"`. -/
theorem C6_decode_error_witness :
    (call_proxypin_tool 4 "get_statistics" none (PostOutcome.resp ⟨200, "OK",
      "\x7b\"result\":\x7b\"content\":[\x7b\"text\":\"not json\"\x7d]\x7d\x7d"⟩)).result
      = Except.error (PyErr.jsonDecodeError "not json") :=
  (C6_decode_error 4 "get_statistics" none 200 "OK"
    "\x7b\"result\":\x7b\"content\":[\x7b\"text\":\"not json\"\x7d]\x7d\x7d" "not json"
    [("text", Json.str "not json")] [] (by omega) (by rfl) (by rfl) (by rfl)).1

/-- C4 counterexample: a non-2xx HTTP status (404) and a network
failure (connection refused) both make `call_proxypin_tool` raise the
one generic `Exception` constructor with the same
`"ProxyPin连接失败: ..."` message prefix (the `except
requests.exceptions.RequestException` on line 52 catches the
`HTTPError` from `raise_for_status()` and the `ConnectionError` alike),
so the code does not classify transport-layer failures into two
distinct typed errors `TransportError` and `ConnectionError`. -/
theorem C4_counterexample :
    (call_proxypin_tool 1 "get_scripts" none
        (PostOutcome.resp ⟨404, "NOT FOUND", ""⟩)).result
      = Except.error (PyErr.exception ("ProxyPin连接失败: "
          ++ http_error_msg 404 "NOT FOUND" MESSAGES_URL))
    ∧ (call_proxypin_tool 2 "get_scripts" none
        (PostOutcome.requestError "Connection refused")).result
      = Except.error (PyErr.exception "ProxyPin连接失败: Connection refused")
    ∧ PyErr.isGenericException
        (PyErr.exception ("ProxyPin连接失败: "
          ++ http_error_msg 404 "NOT FOUND" MESSAGES_URL)) =
      PyErr.isGenericException
        (PyErr.exception "ProxyPin连接失败: Connection refused") :=
  ⟨rfl, rfl, rfl⟩

/-- C4 amended: both transport-layer failure modes raise the same
generic `Exception`, with message `"ProxyPin连接失败: "` followed by the
text of the underlying `requests` exception: for a non-2xx status that
text is the `HTTPError` message, which carries the status code and the
request URL (and the URL names the configured host and port), but not
the response body; for a network failure it is the text of the
underlying error.  There is no type-level distinction between the two
cases. -/
theorem C4_amended (c : Nat) (tool : String) (a : Option (List (String × Json)))
    (status : Nat) (reason body e : String)
    (hstatus : 400 ≤ status ∧ status < 600) :
    (call_proxypin_tool c tool a (PostOutcome.resp ⟨status, reason, body⟩)).result
      = Except.error (PyErr.exception
          ("ProxyPin连接失败: " ++ http_error_msg status reason MESSAGES_URL))
    ∧ (call_proxypin_tool c tool a (PostOutcome.requestError e)).result
      = Except.error (PyErr.exception ("ProxyPin连接失败: " ++ e))
    ∧ strContains MESSAGES_URL PROXYPIN_HOST = true
    ∧ strContains MESSAGES_URL (toString PROXYPIN_PORT) = true := by
  refine ⟨?_, rfl, by rfl, by rfl⟩
  have hr : (call_proxypin_tool c tool a
      (PostOutcome.resp ⟨status, reason, body⟩)).result
      = handle_response (PostOutcome.resp ⟨status, reason, body⟩) := rfl
  rw [hr]
  simp only [handle_response]
  rw [if_pos]
  exact hstatus

/-- C4 amended witness: the amended statement at status 404, reason
`"NOT FOUND"`, and a connection-refused network failure. -/
theorem C4_amended_witness :
    (call_proxypin_tool 7 "stop_proxy" none
        (PostOutcome.resp ⟨404, "NOT FOUND", ""⟩)).result
      = Except.error (PyErr.exception
          ("ProxyPin连接失败: " ++ http_error_msg 404 "NOT FOUND" MESSAGES_URL))
    ∧ (call_proxypin_tool 7 "stop_proxy" none
        (PostOutcome.requestError "Connection refused")).result
      = Except.error (PyErr.exception "ProxyPin连接失败: Connection refused")
    ∧ strContains MESSAGES_URL PROXYPIN_HOST = true
    ∧ strContains MESSAGES_URL (toString PROXYPIN_PORT) = true :=
  C4_amended 7 "stop_proxy" none 404 "NOT FOUND" "" "Connection refused"
    (by omega)

/-- C5 counterexample: on the simulated response
`-LCB-"error":-LCB-"code":-32601,"message":"method not found"-RCB--RCB-` the bridge
raises the generic `Exception` (line 44: `raise Exception(f"MCP Error:
...")`), the very same exception class a transport failure is raised
with (line 53) — there is no distinct `RpcError` type, so the claim
that the failure is type-distinct from transport failures is false. -/
theorem C5_counterexample :
    (call_proxypin_tool 1 "get_scripts" none (PostOutcome.resp ⟨200, "OK",
      "\x7b\"error\":\x7b\"code\":-32601,\"message\":\"method not found\"\x7d\x7d"⟩)).result
      = Except.error (PyErr.exception ("MCP Error: " ++ pyRepr (Json.obj
          [("code", Json.num (-32601)), ("message", Json.str "method not found")])))
    ∧ (call_proxypin_tool 2 "get_scripts" none
        (PostOutcome.requestError "Connection refused")).result
      = Except.error (PyErr.exception "ProxyPin连接失败: Connection refused")
    ∧ PyErr.isGenericException (PyErr.exception ("MCP Error: " ++ pyRepr (Json.obj
        [("code", Json.num (-32601)), ("message", Json.str "method not found")]))) =
      PyErr.isGenericException
        (PyErr.exception "ProxyPin连接失败: Connection refused") :=
  ⟨rfl, rfl, rfl⟩

/-- C5 amended: whenever the decoded response body is an object with an
`error` field, `call_proxypin_tool` raises the generic `Exception` (not
a distinct `RpcError` class) with message `"MCP Error: "` followed by
the Python repr of the error value; for the remote error
`-LCB-"code":-32601,"message":"method not found"-RCB-` that message contains
both `"-32601"` and `"method not found"`.  The failure is
distinguishable from transport failures only by its message prefix, not
by its exception type. -/
theorem C5_amended (c : Nat) (tool : String) (a : Option (List (String × Json)))
    (status : Nat) (reason body : String) (fields : List (String × Json)) (e : Json)
    (hstatus : status < 400)
    (hbody : jsonLoads body = some (Json.obj fields))
    (herr : dictLookup fields "error" = some e) :
    (call_proxypin_tool c tool a (PostOutcome.resp ⟨status, reason, body⟩)).result
      = Except.error (PyErr.exception ("MCP Error: " ++ pyRepr e))
    ∧ strContains ("MCP Error: " ++ pyRepr (Json.obj [("code", Json.num (-32601)),
        ("message", Json.str "method not found")])) "-32601" = true
    ∧ strContains ("MCP Error: " ++ pyRepr (Json.obj [("code", Json.num (-32601)),
        ("message", Json.str "method not found")])) "method not found" = true := by
  refine ⟨?_, by rfl, by rfl⟩
  have hr : (call_proxypin_tool c tool a
      (PostOutcome.resp ⟨status, reason, body⟩)).result
      = handle_response (PostOutcome.resp ⟨status, reason, body⟩) := rfl
  rw [hr]
  simp only [handle_response]
  rw [if_neg (by omega)]
  simp only [hbody, herr]

/-- C5 amended witness: the amended statement at the simulated
`-32601` remote error response. -/
theorem C5_amended_witness :
    (call_proxypin_tool 9 "clear_requests" none (PostOutcome.resp ⟨200, "OK",
      "\x7b\"error\":\x7b\"code\":-32601,\"message\":\"method not found\"\x7d\x7d"⟩)).result
      = Except.error (PyErr.exception ("MCP Error: " ++ pyRepr (Json.obj
          [("code", Json.num (-32601)), ("message", Json.str "method not found")])))
    ∧ strContains ("MCP Error: " ++ pyRepr (Json.obj [("code", Json.num (-32601)),
        ("message", Json.str "method not found")])) "-32601" = true
    ∧ strContains ("MCP Error: " ++ pyRepr (Json.obj [("code", Json.num (-32601)),
        ("message", Json.str "method not found")])) "method not found" = true :=
  C5_amended 9 "clear_requests" none 200 "OK"
    "\x7b\"error\":\x7b\"code\":-32601,\"message\":\"method not found\"\x7d\x7d"
    [("error", Json.obj [("code", Json.num (-32601)),
      ("message", Json.str "method not found")])]
    (Json.obj [("code", Json.num (-32601)), ("message", Json.str "method not found")])
    (by omega) (by rfl) (by rfl)
